import Mathlib

/-
  Shallow embedding of the utilities-quotes rate service.

  The source is a TypeScript service with a pure rate calculator
  (calculateRates), a weather-fetch helper (fetchWeather) whose response
  handling is modelled here as a pure function over the parsed body, and
  an aggregation endpoint over a fixed city list.  JavaScript numbers are
  modelled as rationals; Math.round is floor of x + 1/2; the free-text
  conditions string is lower-cased and matched by substring, modelled on
  lists of characters.
-/

namespace UtilitiesQuotes

/-- Weather reading consumed by the rate calculator (interface WeatherData). -/
structure WeatherData where
  city : String
  temperature : ℚ
  conditions : String
  humidity : ℚ
deriving DecidableEq

/-- One utility rate quote (interface UtilityRate). -/
structure UtilityRate where
  utility : String
  baseRate : ℚ
  unit : String
  weatherAdjustment : ℚ
  adjustedRate : ℚ
  reason : String
deriving DecidableEq, Inhabited

/-- One entry of the base rate table. -/
structure RateEntry where
  rate : ℚ
  unit : String
deriving DecidableEq

/-- The static base rate table (const baseRates). -/
structure BaseRateTable where
  electricity : RateEntry
  naturalGas : RateEntry
  water : RateEntry
  solar : RateEntry
deriving DecidableEq

/-- Base rates for utilities, constant for the process lifetime. -/
def baseRates : BaseRateTable :=
  { electricity := { rate := 0.12, unit := "kWh" }
    naturalGas := { rate := 1.05, unit := "therm" }
    water := { rate := 0.004, unit := "gallon" }
    solar := { rate := 0.08, unit := "kWh" } }

/-- JavaScript Math.round rounds to the nearest integer, halves toward positive
infinity: floor of x + 1/2. -/
def jsRound (q : ℚ) : ℤ :=
  Int.floor (q + 1 / 2)

/-- ASCII lower-casing of one character, as String.prototype.toLowerCase acts
on the ASCII range used by the service. -/
def lowerChar (c : Char) : Char :=
  if 65 ≤ c.toNat ∧ c.toNat ≤ 90 then Char.ofNat (c.toNat + 32) else c

/-- Lower-cased character list of a string (conditions.toLowerCase). -/
def toLowerCase (s : String) : List Char :=
  s.data.map lowerChar

/-- Whether the second list is an initial segment of the first. -/
def leadsWith : List Char → List Char → Bool
  | [], _ => true
  | _ :: _, [] => false
  | a :: as, b :: bs => a == b && leadsWith as bs

/-- Substring containment on character lists (String.prototype.includes). -/
def includesStr : List Char → List Char → Bool
  | [], needle => needle.isEmpty
  | s@(_ :: t), needle => leadsWith needle s || includesStr t needle

/-- Calculate rate adjustments based on weather (function calculateRates). -/
def calculateRates (weather : WeatherData) : List UtilityRate :=
  let temp := weather.temperature
  let conditions := toLowerCase weather.conditions
  let humidity := weather.humidity
  let elecAdjust : ℚ :=
    if temp > 85 then 0.04
    else if temp < 40 then 0.03
    else if 65 ≤ temp ∧ temp ≤ 75 then -0.02
    else 0
  let elecReason : String :=
    if temp > 85 then "High cooling demand due to heat"
    else if temp < 40 then "Increased heating demand"
    else if 65 ≤ temp ∧ temp ≤ 75 then "Low HVAC demand - mild weather"
    else "Standard rate"
  let gasAdjust : ℚ :=
    if temp < 32 then 0.45
    else if temp < 50 then 0.25
    else if temp > 80 then -0.15
    else 0
  let gasReason : String :=
    if temp < 32 then "Peak heating season - extreme cold"
    else if temp < 50 then "Heating demand increased"
    else if temp > 80 then "Reduced heating demand"
    else "Standard rate"
  let waterAdjust : ℚ :=
    if humidity < 30 ∧ temp > 80 then 0.002
    else if includesStr conditions ("rain".data) then -0.001
    else 0
  let waterReason : String :=
    if humidity < 30 ∧ temp > 80 then "Drought surcharge - conservation pricing"
    else if includesStr conditions ("rain".data) then "Reduced irrigation demand"
    else "Standard rate"
  let solarAdjust : ℚ :=
    if includesStr conditions ("sunny".data) || includesStr conditions ("clear".data) then 0.03
    else if includesStr conditions ("cloud".data) || includesStr conditions ("overcast".data) then -0.02
    else if includesStr conditions ("rain".data) || includesStr conditions ("storm".data) then -0.04
    else 0
  let solarReason : String :=
    if includesStr conditions ("sunny".data) || includesStr conditions ("clear".data) then
      "Peak solar production - premium buyback"
    else if includesStr conditions ("cloud".data) || includesStr conditions ("overcast".data) then
      "Reduced solar output"
    else if includesStr conditions ("rain".data) || includesStr conditions ("storm".data) then
      "Minimal solar production"
    else "Standard buyback rate"
  [ { utility := "Electricity"
      baseRate := baseRates.electricity.rate
      unit := baseRates.electricity.unit
      weatherAdjustment := elecAdjust
      adjustedRate := ((jsRound ((baseRates.electricity.rate + elecAdjust) * 1000) : ℤ) : ℚ) / 1000
      reason := elecReason },
    { utility := "Natural Gas"
      baseRate := baseRates.naturalGas.rate
      unit := baseRates.naturalGas.unit
      weatherAdjustment := gasAdjust
      adjustedRate := ((jsRound ((baseRates.naturalGas.rate + gasAdjust) * 100) : ℤ) : ℚ) / 100
      reason := gasReason },
    { utility := "Water"
      baseRate := baseRates.water.rate
      unit := baseRates.water.unit
      weatherAdjustment := waterAdjust
      adjustedRate := ((jsRound ((baseRates.water.rate + waterAdjust) * 10000) : ℤ) : ℚ) / 10000
      reason := waterReason },
    { utility := "Solar Buyback"
      baseRate := baseRates.solar.rate
      unit := baseRates.solar.unit
      weatherAdjustment := solarAdjust
      adjustedRate := ((jsRound ((baseRates.solar.rate + solarAdjust) * 1000) : ℤ) : ℚ) / 1000
      reason := solarReason } ]

/-- The quote at position i of the calculated list (default on out of range). -/
def quoteAt (w : WeatherData) (i : ℕ) : UtilityRate :=
  (calculateRates w).getD i default

/-- Rounding to p decimal places with JavaScript Math.round semantics, the
specification notion adjustedRate = round(baseRate + adjustment, p). -/
def roundTo (q : ℚ) (p : ℕ) : ℚ :=
  ((jsRound (q * 10 ^ p) : ℤ) : ℚ) / 10 ^ p

/-- JSON values, the possible results of JSON.parse. -/
inductive JsValue where
  | null : JsValue
  | bool : Bool → JsValue
  | num : ℚ → JsValue
  | str : String → JsValue
  | arr : List JsValue → JsValue
  | obj : List (String × JsValue) → JsValue

/-- First binding of a key in an object literal. -/
def lookupField (fields : List (String × JsValue)) (name : String) : Option JsValue :=
  match fields with
  | [] => none
  | (k, v) :: rest => if k = name then some v else lookupField rest name

/-- JavaScript property access parsed.error: throws a TypeError on null,
yields the field on an object (none models undefined when absent), and
undefined on every other value. -/
def getErrorField : JsValue → Except Unit (Option JsValue)
  | .null => .error ()
  | .obj fields => .ok (lookupField fields "error")
  | _ => .ok none

/-- JavaScript truthiness of a value. -/
def truthy : JsValue → Bool
  | .null => false
  | .bool b => b
  | .num q => if q = 0 then false else true
  | .str s => if s = "" then false else true
  | .arr _ => true
  | .obj _ => true

/-- Truthiness of a possibly-undefined value: undefined is falsy. -/
def truthyOpt : Option JsValue → Bool
  | none => false
  | some v => truthy v

/-- Outcome of the fetchWeather promise: resolve with the parsed body,
reject with the upstream-reported error value, or reject with the constant
invalid-response message. -/
inductive FetchOutcome where
  | resolved : JsValue → FetchOutcome
  | rejectedUpstream : JsValue → FetchOutcome
  | rejectedInvalid : String → FetchOutcome

/-- The response-end handler of fetchWeather, as a pure function of the
parsed body: none models a body JSON.parse throws on.  Inside the try
block, a thrown property access (body null) also lands in the catch. -/
def handleWeatherBody (parsed : Option JsValue) : FetchOutcome :=
  match parsed with
  | none => .rejectedInvalid "Invalid response from weather service"
  | some v =>
    match getErrorField v with
    | .error _ => .rejectedInvalid "Invalid response from weather service"
    | .ok fieldVal =>
      if truthyOpt fieldVal then .rejectedUpstream (fieldVal.getD .null)
      else .resolved v

/-- The error field of a parsed value as the code reads it on the non-throwing
path: the field of an object, undefined otherwise. -/
def errVal : JsValue → Option JsValue
  | .obj fields => lookupField fields "error"
  | _ => none

/-- Whether a parsed value has an error field, in the words of the
specification sentence on the success case. -/
def hasErrorField : JsValue → Bool
  | .obj fields => fields.any fun kv => kv.1 = "error"
  | _ => false

/-- One entry of the aggregation response for a city. -/
structure CityQuote where
  city : String
  temperature : ℚ
  conditions : String
  rates : List UtilityRate

/-- The quote object the aggregation endpoint pushes for one weather reading. -/
def mkCityQuote (w : WeatherData) : CityQuote :=
  { city := w.city
    temperature := w.temperature
    conditions := w.conditions
    rates := calculateRates w }

/-- The fixed city list of the aggregation endpoint. -/
def allCities : List String :=
  ["new-york", "london", "tokyo", "sydney", "paris"]

/-- The aggregation loop of GET /api/rates: iterate the fixed city list in
order, push a quote when the fetch succeeds, silently skip it otherwise.
The fetch is abstracted as a function to an optional reading; none models
any of the three failure modes. -/
def aggregateRates (fetch : String → Option WeatherData) : List CityQuote :=
  allCities.foldl
    (fun quotes city =>
      match fetch city with
      | some w => quotes ++ [mkCityQuote w]
      | none => quotes)
    []

/-- Scenario 1 input of the specification. -/
def sunnyHotReading : WeatherData :=
  { city := "c", temperature := 90, conditions := "sunny", humidity := 20 }

/-- Scenario 2 input of the specification. -/
def coldClearReading : WeatherData :=
  { city := "c", temperature := 25, conditions := "clear", humidity := 50 }

/-- Scenario 3 input of the specification. -/
def cloudyRainReading : WeatherData :=
  { city := "c", temperature := 70, conditions := "cloudy, light rain", humidity := 60 }

/-- A reading at the electricity boundary temperature 85. -/
def boundary85Reading : WeatherData :=
  { city := "c", temperature := 85, conditions := "x", humidity := 50 }

/-- A reading at the electricity boundary temperature 65. -/
def boundary65Reading : WeatherData :=
  { city := "c", temperature := 65, conditions := "x", humidity := 50 }

/-- A reading at the electricity boundary temperature 75. -/
def boundary75Reading : WeatherData :=
  { city := "c", temperature := 75, conditions := "x", humidity := 50 }

/-- A hot dry rainy reading: the drought rule fires although rain occurs. -/
def droughtRainReading : WeatherData :=
  { city := "c", temperature := 90, conditions := "rain", humidity := 20 }

/-- A mild rainy reading: only the rain rule fires for water. -/
def mildRainReading : WeatherData :=
  { city := "c", temperature := 70, conditions := "rain", humidity := 50 }

/-- A fetch oracle that fails for exactly two of the five fixed cities. -/
def twoFailFetch (city : String) : Option WeatherData :=
  if city = "london" ∨ city = "paris" then none
  else some { city := city, temperature := 70, conditions := "clear", humidity := 50 }

/-- An upstream body reporting an error, as in the failure scenario. -/
def notFoundBody : JsValue :=
  .obj [("error", .str "not found")]

/-- A parsed weather body with no error field. -/
def plainWeatherBody : JsValue :=
  .obj [("city", .str "paris"), ("temperature", .num 70)]

/-- A parsed body whose error field is the empty string, which is falsy. -/
def emptyErrorBody : JsValue :=
  .obj [("error", .str "")]

/-- Push-and-skip folding over a city list collects, in order, exactly the
quotes of the cities whose fetch succeeds. -/
lemma foldl_push_skip_eq (fetch : String → Option WeatherData) (l : List String)
    (acc : List CityQuote) :
    l.foldl
      (fun quotes city =>
        match fetch city with
        | some w => quotes ++ [mkCityQuote w]
        | none => quotes)
      acc
      = acc ++ l.filterMap (fun c => (fetch c).map mkCityQuote) := by
  induction l generalizing acc with
  | nil => simp
  | cons c t ih =>
    cases h : fetch c with
    | none => simp [List.foldl_cons, h, ih, List.filterMap_cons]
    | some w => simp [List.foldl_cons, h, ih, List.filterMap_cons]

/-- The number of collected quotes plus the number of failed fetches is the
length of the city list. -/
lemma length_filterMap_add_countP_none (fetch : String → Option WeatherData)
    (l : List String) :
    (l.filterMap (fun c => (fetch c).map mkCityQuote)).length
      + l.countP (fun c => (fetch c).isNone) = l.length := by
  induction l with
  | nil => simp
  | cons c t ih =>
    cases h : fetch c with
    | none => simp [List.filterMap_cons, h, List.countP_cons] ; omega
    | some w => simp [List.filterMap_cons, h, List.countP_cons] ; omega

/-- On a non-null parsed body the handler reads the error field and branches
on its truthiness. -/
lemma handleWeatherBody_some_eq (u : JsValue) (hu : u ≠ JsValue.null) :
    handleWeatherBody (some u) =
      if truthyOpt (errVal u) = true then
        FetchOutcome.rejectedUpstream ((errVal u).getD JsValue.null)
      else FetchOutcome.resolved u := by
  cases u with
  | null => exact absurd rfl hu
  | bool b => rfl
  | num q => rfl
  | str s => rfl
  | arr xs => rfl
  | obj fs => rfl

/-- Inversion: the handler resolves only on a non-null body whose error field
is absent or falsy, and it resolves with that body itself. -/
lemma handleWeatherBody_resolved_inv (u v : JsValue)
    (h : handleWeatherBody (some u) = FetchOutcome.resolved v) :
    u = v ∧ u ≠ JsValue.null ∧ truthyOpt (errVal u) = false := by
  cases u <;> (try exact FetchOutcome.noConfusion h) <;>
    · rw [handleWeatherBody_some_eq _ (by simp)] at h
      split at h
      · exact absurd h (by intro hh; exact FetchOutcome.noConfusion hh)
      · rename_i hcond
        injection h with h
        subst h
        refine ⟨rfl, by simp, ?_⟩
        simpa [Bool.not_eq_true] using hcond

/-- Claim C1: for every WeatherReading, each of the four quotes returned by
calculateRates satisfies adjustedRate = round(baseRate + weatherAdjustment)
at the fixed per-utility precision, 3 decimals for Electricity and Solar
Buyback, 2 decimals for Natural Gas, 4 decimals for Water. -/
theorem adjustedRate_is_rounded_sum (w : WeatherData) :
    (quoteAt w 0).adjustedRate = roundTo ((quoteAt w 0).baseRate + (quoteAt w 0).weatherAdjustment) 3 ∧
    (quoteAt w 1).adjustedRate = roundTo ((quoteAt w 1).baseRate + (quoteAt w 1).weatherAdjustment) 2 ∧
    (quoteAt w 2).adjustedRate = roundTo ((quoteAt w 2).baseRate + (quoteAt w 2).weatherAdjustment) 4 ∧
    (quoteAt w 3).adjustedRate = roundTo ((quoteAt w 3).baseRate + (quoteAt w 3).weatherAdjustment) 3 := by
  simp [quoteAt, calculateRates, roundTo, baseRates]
  norm_num

/-- Claim C2: temperature exactly 85 does not trigger the hot-weather
electricity rule, so the adjustment is 0 with reason Standard rate, while
temperatures exactly 65 and exactly 75 trigger the mild-weather rule with
adjustment -0.02, boundary inclusive. -/
theorem electricity_boundaries (w₁ w₂ w₃ : WeatherData)
    (h₁ : w₁.temperature = 85) (h₂ : w₂.temperature = 65) (h₃ : w₃.temperature = 75) :
    ((quoteAt w₁ 0).weatherAdjustment = 0 ∧ (quoteAt w₁ 0).reason = "Standard rate") ∧
    ((quoteAt w₂ 0).weatherAdjustment = -0.02 ∧ (quoteAt w₂ 0).reason = "Low HVAC demand - mild weather") ∧
    ((quoteAt w₃ 0).weatherAdjustment = -0.02 ∧ (quoteAt w₃ 0).reason = "Low HVAC demand - mild weather") := by
  norm_num [quoteAt, calculateRates, h₁, h₂, h₃]

/-- Witness for claim C2 at the three boundary readings. -/
theorem electricity_boundaries_witness :
    boundary85Reading.temperature = 85 ∧
    (quoteAt boundary85Reading 0).weatherAdjustment = 0 ∧
    (quoteAt boundary65Reading 0).weatherAdjustment = -0.02 ∧
    (quoteAt boundary75Reading 0).weatherAdjustment = -0.02 := by
  have h := electricity_boundaries boundary85Reading boundary65Reading boundary75Reading rfl rfl rfl
  exact ⟨rfl, h.1.1, h.2.1.1, h.2.2.1⟩

/-- Claim C3: water rules are evaluated first match first, so the drought
surcharge +0.002 wins whenever humidity < 30 and temperature > 80, whatever
the conditions text says, and the -0.001 rain adjustment applies exactly when
the drought condition fails and the lower-cased conditions contain rain. -/
theorem water_first_match (w₁ w₂ : WeatherData)
    (h₁ : w₁.humidity < 30) (h₂ : w₁.temperature > 80)
    (h₃ : ¬(w₂.humidity < 30 ∧ w₂.temperature > 80))
    (h₄ : includesStr (toLowerCase w₂.conditions) ("rain".data) = true) :
    ((quoteAt w₁ 2).weatherAdjustment = 0.002 ∧
      (quoteAt w₁ 2).reason = "Drought surcharge - conservation pricing") ∧
    ((quoteAt w₂ 2).weatherAdjustment = -0.001 ∧
      (quoteAt w₂ 2).reason = "Reduced irrigation demand") := by
  simp [quoteAt, calculateRates, h₁, h₂, h₃, h₄]

/-- Witness for claim C3: a hot dry reading whose conditions are rain still
gets the drought surcharge, and a mild rainy one gets the rain discount. -/
theorem water_first_match_witness :
    droughtRainReading.humidity < 30 ∧ droughtRainReading.temperature > 80 ∧
    includesStr (toLowerCase droughtRainReading.conditions) ("rain".data) = true ∧
    (quoteAt droughtRainReading 2).weatherAdjustment = 0.002 ∧
    (quoteAt mildRainReading 2).weatherAdjustment = -0.001 := by
  have h := water_first_match droughtRainReading mildRainReading (by decide) (by decide)
    (by decide) (by decide)
  exact ⟨by decide, by decide, by decide, h.1.1, h.2.1⟩

/-- Claim C4: the Solar Buyback rule checks cloud or overcast before rain or
storm, so any reading whose conditions contain cloud but neither sunny nor
clear gets adjustment -0.02 even when rain is also present; on the literal
scenario 3 input the adjusted rates are Electricity 0.10, Natural Gas 1.05,
Water 0.003, and Solar Buyback takes the cloud branch with adjusted rate 0.06. -/
theorem solar_cloud_precedes_rain (w : WeatherData)
    (h₁ : includesStr (toLowerCase w.conditions) ("cloud".data) = true)
    (h₂ : includesStr (toLowerCase w.conditions) ("sunny".data) = false)
    (h₃ : includesStr (toLowerCase w.conditions) ("clear".data) = false) :
    (quoteAt w 3).weatherAdjustment = -0.02 ∧
    (quoteAt cloudyRainReading 0).adjustedRate = 0.10 ∧
    (quoteAt cloudyRainReading 1).adjustedRate = 1.05 ∧
    (quoteAt cloudyRainReading 2).adjustedRate = 0.003 ∧
    (quoteAt cloudyRainReading 3).weatherAdjustment = -0.02 ∧
    (quoteAt cloudyRainReading 3).adjustedRate = 0.06 := by
  have hc : includesStr (toLowerCase cloudyRainReading.conditions) ("cloud".data) = true := by decide
  have hs : includesStr (toLowerCase cloudyRainReading.conditions) ("sunny".data) = false := by decide
  have hcl : includesStr (toLowerCase cloudyRainReading.conditions) ("clear".data) = false := by decide
  have hr : includesStr (toLowerCase cloudyRainReading.conditions) ("rain".data) = true := by decide
  have ht : cloudyRainReading.temperature = 70 := rfl
  have hh : cloudyRainReading.humidity = 60 := rfl
  refine ⟨?_, ?_⟩
  · simp [quoteAt, calculateRates, h₁, h₂, h₃]
  · norm_num [quoteAt, calculateRates, hc, hs, hcl, hr, ht, hh, jsRound, baseRates]

/-- Witness for claim C4 at the scenario 3 reading, whose conditions contain
both cloud and rain. -/
theorem solar_cloud_precedes_rain_witness :
    includesStr (toLowerCase cloudyRainReading.conditions) ("cloud".data) = true ∧
    includesStr (toLowerCase cloudyRainReading.conditions) ("rain".data) = true ∧
    (quoteAt cloudyRainReading 3).weatherAdjustment = -0.02 := by
  have h := solar_cloud_precedes_rain cloudyRainReading (by decide) (by decide) (by decide)
  exact ⟨by decide, by decide, h.1⟩

/-- Claim C5: on the literal scenario 1 input the adjusted rates are
Electricity 0.16, Natural Gas 0.90, Water 0.006, Solar Buyback 0.11, and on
the literal scenario 2 input they are Natural Gas 1.50, Electricity 0.15,
Water 0.004, Solar Buyback 0.11. -/
theorem scenario_literal_outputs :
    (quoteAt sunnyHotReading 0).adjustedRate = 0.16 ∧
    (quoteAt sunnyHotReading 1).adjustedRate = 0.90 ∧
    (quoteAt sunnyHotReading 2).adjustedRate = 0.006 ∧
    (quoteAt sunnyHotReading 3).adjustedRate = 0.11 ∧
    (quoteAt coldClearReading 1).adjustedRate = 1.50 ∧
    (quoteAt coldClearReading 0).adjustedRate = 0.15 ∧
    (quoteAt coldClearReading 2).adjustedRate = 0.004 ∧
    (quoteAt coldClearReading 3).adjustedRate = 0.11 := by
  have hs1 : includesStr (toLowerCase sunnyHotReading.conditions) ("sunny".data) = true := by decide
  have hr1 : includesStr (toLowerCase sunnyHotReading.conditions) ("rain".data) = false := by decide
  have ht1 : sunnyHotReading.temperature = 90 := rfl
  have hh1 : sunnyHotReading.humidity = 20 := rfl
  have hc2 : includesStr (toLowerCase coldClearReading.conditions) ("clear".data) = true := by decide
  have hs2 : includesStr (toLowerCase coldClearReading.conditions) ("sunny".data) = false := by decide
  have hr2 : includesStr (toLowerCase coldClearReading.conditions) ("rain".data) = false := by decide
  have ht2 : coldClearReading.temperature = 25 := rfl
  have hh2 : coldClearReading.humidity = 50 := rfl
  refine ⟨?_, ?_, ?_, ?_, ?_, ?_, ?_, ?_⟩ <;>
    norm_num [quoteAt, calculateRates, hs1, hr1, ht1, hh1, hc2, hs2, hr2, ht2, hh2, jsRound, baseRates]

/-- Claim C6 counterexample: the claim that fetchWeather resolves if and only
if the body parses as JSON with no error field fails at two concrete parsed
bodies: the body null parses as JSON and has no error field yet is rejected
through the invalid-response branch, and a body whose error field is the empty
string has an error field yet resolves. -/
theorem fetchWeather_success_iff_cex :
    hasErrorField JsValue.null = false ∧
    handleWeatherBody (some JsValue.null)
      = FetchOutcome.rejectedInvalid "Invalid response from weather service" ∧
    handleWeatherBody (some JsValue.null) ≠ FetchOutcome.resolved JsValue.null ∧
    hasErrorField emptyErrorBody = true ∧
    handleWeatherBody (some emptyErrorBody) = FetchOutcome.resolved emptyErrorBody := by
  refine ⟨rfl, rfl, ?_, ?_, ?_⟩
  · intro h
    exact FetchOutcome.noConfusion h
  · simp [hasErrorField, emptyErrorBody]
  · simp [handleWeatherBody, getErrorField, emptyErrorBody, lookupField, truthyOpt, truthy]

/-- Claim C6 as amended: fetchWeather resolves with the parsed body if and
only if the body parses as JSON to a value other than null whose error field
is absent or falsy; a truthy error field rejects with that value, in
particular an upstream body with error not found rejects carrying not found;
a body that is not valid JSON rejects with the invalid-response message. -/
theorem fetchWeather_body_outcome (p : Option JsValue) (v : JsValue) :
    (handleWeatherBody p = FetchOutcome.resolved v ↔
      p = some v ∧ v ≠ JsValue.null ∧ truthyOpt (errVal v) = false) ∧
    (∀ fv, errVal v = some fv → truthy fv = true →
      handleWeatherBody (some v) = FetchOutcome.rejectedUpstream fv) ∧
    handleWeatherBody (some notFoundBody)
      = FetchOutcome.rejectedUpstream (JsValue.str "not found") ∧
    handleWeatherBody none = FetchOutcome.rejectedInvalid "Invalid response from weather service" := by
  refine ⟨⟨?_, ?_⟩, ?_, ?_, rfl⟩
  · intro h
    cases p with
    | none => exact FetchOutcome.noConfusion h
    | some u =>
      obtain ⟨h1, h2, h3⟩ := handleWeatherBody_resolved_inv u v h
      subst h1
      exact ⟨rfl, h2, h3⟩
  · rintro ⟨hp, hnull, hfal⟩
    subst hp
    rw [handleWeatherBody_some_eq v hnull, hfal]
    simp
  · intro fv hev htr
    cases v
    case null => exact Option.noConfusion hev
    all_goals
      rw [handleWeatherBody_some_eq _ (by simp)]
      rw [hev]
      simp [truthyOpt, htr]
  · rfl

/-- Witness for the amended claim C6: a plain weather body resolves. -/
theorem fetchWeather_body_outcome_witness :
    handleWeatherBody (some plainWeatherBody) = FetchOutcome.resolved plainWeatherBody :=
  (fetchWeather_body_outcome (some plainWeatherBody) plainWeatherBody).1.mpr
    ⟨rfl, by simp [plainWeatherBody], by decide⟩

/-- Claim C7: the aggregation handler walks the fixed five-city list in order
and silently skips failed fetches, so with exactly k failures the response
holds exactly 5 - k quotes, in city-list order, with no error record. -/
theorem aggregate_skips_failed_cities (fetch : String → Option WeatherData) (k : ℕ)
    (h : allCities.countP (fun c => (fetch c).isNone) = k) :
    (aggregateRates fetch).length = 5 - k ∧
    aggregateRates fetch = allCities.filterMap (fun c => (fetch c).map mkCityQuote) := by
  have he : aggregateRates fetch
      = allCities.filterMap (fun c => (fetch c).map mkCityQuote) := by
    have hf := foldl_push_skip_eq fetch allCities []
    simpa [aggregateRates] using hf
  refine ⟨?_, he⟩
  have hl := length_filterMap_add_countP_none fetch allCities
  have h5 : allCities.length = 5 := rfl
  rw [he]
  omega

/-- Witness for claim C7 with a fetch oracle failing on two of five cities. -/
theorem aggregate_skips_failed_cities_witness :
    allCities.countP (fun c => (twoFailFetch c).isNone) = 2 ∧
    (aggregateRates twoFailFetch).length = 5 - 2 :=
  ⟨by decide, (aggregate_skips_failed_cities twoFailFetch 2 (by decide)).1⟩

/-- Claim C8: for every WeatherReading, calculateRates returns exactly four
quotes in the fixed order Electricity, Natural Gas, Water, Solar Buyback, with
the constant base rates and units of the base rate table. -/
theorem calculateRates_quote_shape (w : WeatherData) :
    (calculateRates w).length = 4 ∧
    (quoteAt w 0).utility = "Electricity" ∧ (quoteAt w 0).baseRate = 0.12 ∧ (quoteAt w 0).unit = "kWh" ∧
    (quoteAt w 1).utility = "Natural Gas" ∧ (quoteAt w 1).baseRate = 1.05 ∧ (quoteAt w 1).unit = "therm" ∧
    (quoteAt w 2).utility = "Water" ∧ (quoteAt w 2).baseRate = 0.004 ∧ (quoteAt w 2).unit = "gallon" ∧
    (quoteAt w 3).utility = "Solar Buyback" ∧ (quoteAt w 3).baseRate = 0.08 ∧ (quoteAt w 3).unit = "kWh" := by
  refine ⟨rfl, ?_⟩
  simp [quoteAt, calculateRates, baseRates]

/-- Claim C9: calculateRates is a pure total deterministic function, equal
inputs give identical outputs and every well-typed input yields a full
four-quote result. -/
theorem calculateRates_deterministic (w₁ w₂ : WeatherData) (h : w₁ = w₂) :
    calculateRates w₁ = calculateRates w₂ ∧ (calculateRates w₁).length = 4 :=
  ⟨h ▸ rfl, rfl⟩

/-- Witness for claim C9 at the scenario 1 reading. -/
theorem calculateRates_deterministic_witness :
    calculateRates sunnyHotReading = calculateRates sunnyHotReading ∧
    (calculateRates sunnyHotReading).length = 4 :=
  calculateRates_deterministic sunnyHotReading sunnyHotReading rfl

/-- Claim C10: the body null is valid JSON with no error field, yet the
handler rejects it with the invalid-response message, because the error-field
access throws inside the same try block as the parse. -/
theorem null_body_rejected_invalid :
    handleWeatherBody (some JsValue.null)
      = FetchOutcome.rejectedInvalid "Invalid response from weather service" ∧
    hasErrorField JsValue.null = false :=
  ⟨rfl, rfl⟩

end UtilitiesQuotes
